import Mathlib

set_option maxRecDepth 100000

/-!
Verification of the decision-and-composition pipeline of a scheduled
content-publishing bot (src/script.py), shallowly embedded in Lean 4.

The embedding follows the source file:
  - generate_prompt      : the prompt-building part of generate_tweet_with_gemini
                           (script.py lines 133..183)
  - extract_tweet_text   : the JSON-path extraction (line 205)
  - gemini_invoke        : the full invoker over a modelled HTTP outcome
                           (lines 192..218)
  - post_tweet           : the publisher (lines 232..254)
  - run_bot              : the run loop (lines 260..314), producing a trace
                           of external-effect events, over an explicit
                           environment of random draws and service outcomes.

Python string truthiness (None and the empty string are falsy) is modelled
by pyTruthy; random.randint(a, b) over an abstract draw d is modelled as
a + d % (b - a + 1), which is exactly the set of values randint can return.
-/

/-- Python truthiness of an optional string: None and the empty string are
falsy, every other string is truthy. -/
def pyTruthy : Option String → Bool
  | none => false
  | some s => !(s == "")

/-- Python str.strip() with no argument: remove leading and trailing
whitespace characters. -/
def py_strip (s : String) : String :=
  ⟨((s.data.dropWhile Char.isWhitespace).reverse.dropWhile Char.isWhitespace).reverse⟩

/-- script.py line 83. -/
def BLOG_URL : String := "https://vladlazar.blog"

/-- script.py lines 69..76. -/
def TOPICS : List String :=
  ["tech", "fullstack development", "AI", "the Moldovan tech market",
   "startups", "launching products"]

/-- script.py line 86. -/
def LANGUAGES : List String := ["en", "ro"]

/-- The prompt construction of generate_tweet_with_gemini
(script.py lines 133..183).  The Romanian branch builds five pieces and
concatenates them; the English branch starts from a base template and
conditionally appends the trending, humor and link chunks in that
source order. String literals are transcribed byte-for-byte from the
Python f-strings, including indentation and trailing spaces. -/
def generate_prompt (topic : String) (is_funny : Bool)
    (trending_keyword : Option String) (include_link : Bool)
    (language : String) : String :=
  if language == "ro" then
    let prompt_intro :=
      "\n        Ești un pasionat de tehnologie, prietenos, antrenant și informat.\n        Sarcina ta este să scrii un singur tweet (maximum 280 de caractere) despre următorul subiect:\n        \"" ++ topic ++ "\".\n        "
    let tweet_guidelines :=
      "\n        Tweet-ul ar trebui să fie:\n        - Concis și direct la subiect.\n        - Antrenant și conversațional.\n        - Să folosească hashtag-uri relevante.\n        - Să sune ca și cum ar fi fost scris de o persoană.\n        "
    let prompt_trending :=
      if pyTruthy trending_keyword then
        "\n\nDe asemenea, încearcă să incluzi organic următorul cuvânt-cheie în trend: \"" ++ trending_keyword.getD "" ++ "\"."
      else ""
    let prompt_humor :=
      if is_funny then
        "\n\nFă acest tweet amuzant și spiritual. Folosește umorul pentru a-ți exprima punctul de vedere."
      else ""
    let prompt_link :=
      if include_link then
        "\n\nInclude un link pertinent de pe blog-ul " ++ BLOG_URL ++ ". De exemplu: " ++ BLOG_URL ++ "/postari/despre-subiectul-tweet-ului"
      else ""
    prompt_intro ++ tweet_guidelines ++ prompt_trending ++ prompt_humor ++ prompt_link
  else
    let prompt :=
      "\n        You are a friendly, engaging, and knowledgeable tech enthusiast.\n        Your task is to write a single tweet (maximum 280 characters) about the following topic:\n        \"" ++ topic ++ "\".\n        \n        The tweet should be:\n        - Concise and to the point.\n        - Engaging and conversational.\n        - Use relevant hashtags.\n        - Sound like it was written by a human.\n        "
    let prompt :=
      if pyTruthy trending_keyword then
        prompt ++ ("\n\nAlso, try to organically include the following trending keyword: \"" ++ trending_keyword.getD "" ++ "\".")
      else prompt
    let prompt :=
      if is_funny then
        prompt ++ "\n\nMake this tweet funny and witty. Use humor to get your point across."
      else prompt
    let prompt :=
      if include_link then
        prompt ++ ("\n\nInclude a relevant link from the blog " ++ BLOG_URL ++ ". For example: " ++ BLOG_URL ++ "/posts/about-the-tweet-topic.")
      else prompt
    prompt

/-- The language-specific base template clause (spec section 4.3): the
Romanian intro plus guidelines when language is the secondary one,
otherwise the English base template. -/
def base_clause (topic language : String) : String :=
  if language == "ro" then
    "\n        Ești un pasionat de tehnologie, prietenos, antrenant și informat.\n        Sarcina ta este să scrii un singur tweet (maximum 280 de caractere) despre următorul subiect:\n        \"" ++ topic ++ "\".\n        " ++
    "\n        Tweet-ul ar trebui să fie:\n        - Concis și direct la subiect.\n        - Antrenant și conversațional.\n        - Să folosească hashtag-uri relevante.\n        - Să sune ca și cum ar fi fost scris de o persoană.\n        "
  else
    "\n        You are a friendly, engaging, and knowledgeable tech enthusiast.\n        Your task is to write a single tweet (maximum 280 characters) about the following topic:\n        \"" ++ topic ++ "\".\n        \n        The tweet should be:\n        - Concise and to the point.\n        - Engaging and conversational.\n        - Use relevant hashtags.\n        - Sound like it was written by a human.\n        "

/-- The tone (humor) clause, empty when the plan is not humorous. -/
def tone_clause (is_funny : Bool) (language : String) : String :=
  if is_funny then
    if language == "ro" then
      "\n\nFă acest tweet amuzant și spiritual. Folosește umorul pentru a-ți exprima punctul de vedere."
    else
      "\n\nMake this tweet funny and witty. Use humor to get your point across."
  else ""

/-- The trending-keyword clause, empty when no (truthy) keyword is given. -/
def keyword_clause (trending_keyword : Option String) (language : String) : String :=
  if pyTruthy trending_keyword then
    if language == "ro" then
      "\n\nDe asemenea, încearcă să incluzi organic următorul cuvânt-cheie în trend: \"" ++ trending_keyword.getD "" ++ "\"."
    else
      "\n\nAlso, try to organically include the following trending keyword: \"" ++ trending_keyword.getD "" ++ "\"."
  else ""

/-- The blog-link clause, empty when the plan does not want a link. -/
def link_clause (include_link : Bool) (language : String) : String :=
  if include_link then
    if language == "ro" then
      "\n\nInclude un link pertinent de pe blog-ul " ++ BLOG_URL ++ ". De exemplu: " ++ BLOG_URL ++ "/postari/despre-subiectul-tweet-ului"
    else
      "\n\nInclude a relevant link from the blog " ++ BLOG_URL ++ ". For example: " ++ BLOG_URL ++ "/posts/about-the-tweet-topic."
  else ""

/-- The clause order the spec asserts (section 4.3): base, then tone, then
keyword, then link. Stated from the spec to be compared with the source. -/
def prompt_spec_order (topic : String) (is_funny : Bool)
    (trending_keyword : Option String) (include_link : Bool)
    (language : String) : String :=
  base_clause topic language ++ tone_clause is_funny language ++
    keyword_clause trending_keyword language ++ link_clause include_link language

/-- The clause order the source actually uses: base, then keyword, then
tone, then link (in both language branches). -/
def prompt_code_order (topic : String) (is_funny : Bool)
    (trending_keyword : Option String) (include_link : Bool)
    (language : String) : String :=
  base_clause topic language ++ keyword_clause trending_keyword language ++
    tone_clause is_funny language ++ link_clause include_link language

/-! ## Generation invoker (script.py lines 186..218) -/

/-- One element of the parts array of a Gemini candidate content. -/
structure GeminiPart where
  text : Option String
deriving DecidableEq

/-- The content object of a Gemini candidate. -/
structure GeminiContent where
  parts : Option (List GeminiPart)
deriving DecidableEq

/-- One element of the candidates array of a Gemini response body. -/
structure GeminiCandidate where
  content : Option GeminiContent
deriving DecidableEq

/-- A parsed Gemini response body (the JSON fields the code reads). -/
structure GeminiData where
  candidates : Option (List GeminiCandidate)
deriving DecidableEq

/-- script.py line 205:
data.get("candidates", [{}])[0].get("content", {}).get("parts", [{}])[0].get("text").
A dict .get with a default never raises; indexing [0] raises IndexError on an
empty list, which line 216 catches and turns into None — modelled by the []
branches returning none. -/
def extract_tweet_text (data : GeminiData) : Option String :=
  match data.candidates.getD [{ content := none }] with
  | [] => none
  | c :: _ =>
    match (c.content.getD { parts := none }).parts.getD [{ text := none }] with
    | [] => none
    | p :: _ => p.text

/-- Outcome of the HTTP POST to the generation service: a transport-level
failure (requests raises a RequestException: connection error, timeout), or a
response with a status code and a body, where body = none models a body that
is not valid JSON (response.json() raises). -/
inductive HttpOutcome
  | transportError
  | response (status : Nat) (body : Option GeminiData)
deriving DecidableEq

/-- script.py lines 192..218. response.raise_for_status() raises HTTPError
(a RequestException, caught at line 213) exactly for status codes in
[400, 600); a transport failure is caught at line 213; a malformed body is
caught at line 213 as well (requests raises its own JSONDecodeError, a
RequestException subclass). Line 207: if tweet_text: — None and the empty
string are falsy, so a whitespace-only text passes the check and is returned
stripped. Python str.strip() is modelled by py_strip. -/
def gemini_invoke (outcome : HttpOutcome) : Option String :=
  match outcome with
  | .transportError => none
  | .response status body =>
    if 400 ≤ status ∧ status < 600 then none
    else
      match body with
      | none => none
      | some data =>
        let tweet_text := extract_tweet_text data
        if pyTruthy tweet_text then some (py_strip (tweet_text.getD "")) else none

/-- The validation the spec describes (section 4.4): absent when the text is
missing, empty, or whitespace-only; otherwise the trimmed text. Stated from
the spec to be compared with the source behaviour. -/
def spec_validate (tweet_text : Option String) : Option String :=
  match tweet_text with
  | none => none
  | some s => if py_strip s == "" then none else some (py_strip s)

/-! ## Publisher (script.py lines 220..254) -/

/-- Outcome of the tweepy create_tweet call: success with the platform id
found in response.data, a TweepyException (caught at line 249), or any other
exception (caught at line 252). -/
inductive TweepyOutcome
  | success (tid : String)
  | tweepyError (msg : String)
  | otherError (msg : String)
deriving DecidableEq

/-- The publish result the spec describes: a success flag and the platform
identifier when there is one. On success the code returns True and reports
the id field of response.data (line 246); on either except branch it
returns False and reports no identifier. -/
structure PublishResult where
  succeeded : Bool
  identifier : Option String
deriving DecidableEq

/-- script.py lines 232..254: both except branches return False; the success
branch returns True, having printed the tweet id. -/
def post_tweet (outcome : TweepyOutcome) : PublishResult :=
  match outcome with
  | .success tid => { succeeded := true, identifier := some tid }
  | .tweepyError _ => { succeeded := false, identifier := none }
  | .otherError _ => { succeeded := false, identifier := none }

/-! ## Run loop (script.py lines 260..314) -/

/-- random.randint(a, b) returns an integer in [a, b]; over an abstract
draw it is modelled as a + draw % (b - a + 1). -/
def randint (a b draw : Nat) : Nat := a + draw % (b - a + 1)

/-- The random draws and external-service outcomes one loop iteration
consumes, in source order (script.py lines 274..299). -/
structure IterEnv where
  topic_draw : Nat
  funny_draw : Bool
  link_draw : Bool
  language_draw : Nat
  trends : Option (List String)
  trend_draw : Nat
  gemini : HttpOutcome
  twitter : TweepyOutcome
  delay_draw : Nat

/-- The whole-run environment: the day-count draw and one IterEnv per
iteration index. -/
structure RunEnv where
  count_draw : Nat
  iter : Nat → IterEnv

/-- Externally visible effects of a run, in order: the pytrends fetch, the
generation-service call (with the composed prompt), the publish call (with
the posted text), and time.sleep. -/
inductive Event
  | fetchTrends
  | generate (prompt : String)
  | publish (text : String)
  | sleep (seconds : Nat)
deriving DecidableEq

/-- One iteration of the for loop (script.py lines 274..305): choose topic,
humor, link, language, fetch trends, pick a keyword if any (line 289:
if trending_keywords: — None and the empty list are falsy), generate, and
publish only when the generated content is truthy (line 302). -/
def run_iteration (env : IterEnv) : List Event :=
  let selected_topic := TOPICS.getD (env.topic_draw % TOPICS.length) ""
  let should_be_funny := env.funny_draw
  let should_include_link := env.link_draw
  let selected_language := LANGUAGES.getD (env.language_draw % LANGUAGES.length) ""
  let trending_keyword : Option String :=
    match env.trends with
    | none => none
    | some l => if l.isEmpty then none else some (l.getD (env.trend_draw % l.length) "")
  let prompt := generate_prompt selected_topic should_be_funny trending_keyword
    should_include_link selected_language
  let tweet_content := gemini_invoke env.gemini
  [Event.fetchTrends, Event.generate prompt] ++
    (if pyTruthy tweet_content then [Event.publish (tweet_content.getD "")] else [])

/-- num_tweets = random.randint(0, 7) (script.py line 266). -/
def num_tweets (env : RunEnv) : Nat := randint 0 7 env.count_draw

/-- Iteration i of a run of n iterations: the iteration body followed by the
inter-post sleep drawn by randint(3600, 14400), taken after every iteration
except the last (script.py lines 309..314). -/
def iterBlock (env : RunEnv) (n i : Nat) : List Event :=
  run_iteration (env.iter i) ++
    (if i < n - 1 then [Event.sleep (randint 3600 14400 (env.iter i).delay_draw)] else [])

/-- script.py lines 260..314: draw the day count; on zero return at once
(lines 269..271); otherwise run every iteration in order. -/
def run_bot (env : RunEnv) : List Event :=
  let n := num_tweets env
  if n = 0 then []
  else (List.range n).flatMap (iterBlock env n)

/-- Recognizer for generation-call events. -/
def isGenerateEvent : Event → Bool
  | .generate _ => true
  | _ => false

/-- Recognizer for publish-call events. -/
def isPublishEvent : Event → Bool
  | .publish _ => true
  | _ => false

/-- Recognizer for sleep events. -/
def isSleepEvent : Event → Bool
  | .sleep _ => true
  | _ => false

/-! ## Auxiliary definitions for the claims -/

/-- A status code in the 2xx success class. -/
def is2xx (status : Nat) : Bool := 200 ≤ status && status < 300

/-- sub occurs as a contiguous substring of s. -/
def hasSubstr (sub s : String) : Prop := ∃ a b : String, s = a ++ sub ++ b

/-- A well-formed Gemini body whose first candidate text is s. -/
def geminiDataWith (s : String) : GeminiData :=
  { candidates := some [{ content := some { parts := some [{ text := some s }] } }] }

/-- An iteration environment whose generation call fails at transport level. -/
def failIterEnv : IterEnv :=
  { topic_draw := 0, funny_draw := false, link_draw := false, language_draw := 0,
    trends := none, trend_draw := 0, gemini := HttpOutcome.transportError,
    twitter := TweepyOutcome.tweepyError "Unauthorized", delay_draw := 0 }

/-- An iteration environment whose generation and publish calls succeed. -/
def okIterEnv : IterEnv :=
  { failIterEnv with
    gemini := HttpOutcome.response 200 (some (geminiDataWith "hello")),
    twitter := TweepyOutcome.success "12345" }

/-- A two-iteration run whose generation calls all fail. -/
def envFail : RunEnv := { count_draw := 2, iter := fun _ => failIterEnv }

/-- A run whose day-count draw comes out zero (8 % 8 = 0). -/
def envZero : RunEnv := { count_draw := 8, iter := fun _ => failIterEnv }

/-- A one-iteration fully successful run. -/
def envOk1 : RunEnv := { count_draw := 1, iter := fun _ => okIterEnv }

/-- A three-iteration fully successful run. -/
def envOk3 : RunEnv := { count_draw := 3, iter := fun _ => okIterEnv }

/-! ## Helper lemmas -/

theorem hasSubstr_append_right {sub s : String} (t : String) (h : hasSubstr sub s) :
    hasSubstr sub (t ++ s) := by
  rcases h with ⟨a, b, rfl⟩
  exact ⟨t ++ a, b, by simp [String.append_assoc]⟩

theorem link_clause_contains_url (language : String) :
    hasSubstr BLOG_URL (link_clause true language) := by
  by_cases hl : (language == "ro") = true
  · exact ⟨"\n\nInclude un link pertinent de pe blog-ul ",
      ". De exemplu: " ++ BLOG_URL ++ "/postari/despre-subiectul-tweet-ului",
      by simp [link_clause, hl, String.append_assoc]⟩
  · exact ⟨"\n\nInclude a relevant link from the blog ",
      ". For example: " ++ BLOG_URL ++ "/posts/about-the-tweet-topic.",
      by simp [link_clause, hl, String.append_assoc]⟩

theorem generate_prompt_eq_code_order (topic : String) (is_funny : Bool)
    (tk : Option String) (il : Bool) (language : String) :
    generate_prompt topic is_funny tk il language =
      prompt_code_order topic is_funny tk il language := by
  unfold generate_prompt prompt_code_order base_clause tone_clause keyword_clause link_clause
  cases hl : language == "ro" <;> cases hk : pyTruthy tk <;>
    cases hf : is_funny <;> cases hi : il <;>
      simp [hl, hk, hf, hi, String.append_empty, String.append_assoc]

theorem countP_run_iteration_sleep (e : IterEnv) :
    (run_iteration e).countP isSleepEvent = 0 := by
  simp only [run_iteration, List.countP_append]
  by_cases hp : pyTruthy (gemini_invoke e.gemini) = true <;>
    simp [hp, List.countP_cons, isSleepEvent]

theorem countP_run_iteration_generate (e : IterEnv) :
    (run_iteration e).countP isGenerateEvent = 1 := by
  simp only [run_iteration, List.countP_append]
  by_cases hp : pyTruthy (gemini_invoke e.gemini) = true <;>
    simp [hp, List.countP_cons, isGenerateEvent]

theorem countP_iterBlock_sleep (env : RunEnv) (n i : Nat) :
    (iterBlock env n i).countP isSleepEvent = if i < n - 1 then 1 else 0 := by
  by_cases h : i < n - 1 <;>
    simp [iterBlock, List.countP_append, countP_run_iteration_sleep, h,
      List.countP_cons, isSleepEvent]

theorem countP_iterBlock_generate (env : RunEnv) (n i : Nat) :
    (iterBlock env n i).countP isGenerateEvent = 1 := by
  by_cases h : i < n - 1 <;>
    simp [iterBlock, List.countP_append, countP_run_iteration_generate, h,
      List.countP_cons, isGenerateEvent]

theorem countP_range_flatMap_sleep (env : RunEnv) (n m : Nat) :
    ((List.range m).flatMap (iterBlock env n)).countP isSleepEvent = min m (n - 1) := by
  induction m with
  | zero => simp
  | succ k ih =>
    rw [List.range_succ, List.flatMap_append, List.countP_append, ih]
    simp only [List.flatMap_cons, List.flatMap_nil, List.append_nil,
      countP_iterBlock_sleep]
    by_cases h : k < n - 1 <;> simp [h] <;> omega

theorem countP_range_flatMap_generate (env : RunEnv) (n m : Nat) :
    ((List.range m).flatMap (iterBlock env n)).countP isGenerateEvent = m := by
  induction m with
  | zero => simp
  | succ k ih =>
    rw [List.range_succ, List.flatMap_append, List.countP_append, ih]
    simp [countP_iterBlock_generate]

theorem sleep_not_in_run_iteration (d : Nat) (e : IterEnv) :
    Event.sleep d ∉ run_iteration e := by
  intro h
  simp only [run_iteration] at h
  rcases List.mem_append.mp h with h | h
  · simp at h
  · split at h <;> simp at h

theorem publish_in_run_iteration_nonempty (e : IterEnv) (s : String)
    (h : Event.publish s ∈ run_iteration e) : s ≠ "" := by
  simp only [run_iteration] at h
  rcases List.mem_append.mp h with h | h
  · simp at h
  · cases hg : gemini_invoke e.gemini with
    | none => rw [hg] at h; simp [pyTruthy] at h
    | some t =>
      rw [hg] at h
      by_cases ht : t = ""
      · subst ht; simp [pyTruthy] at h
      · simp [pyTruthy, ht] at h
        subst h
        exact ht

/-! ## Claim theorems -/

/-- C1 (counterexample): the composed request is NOT base, then tone, then
keyword, then link: at a concrete plan with a humorous tone and a trending
keyword the source output differs from the spec-ordered composition, in
the primary-language branch and in the secondary-language branch alike
(the source puts the keyword clause before the tone clause). -/
theorem generate_prompt_spec_order_cex :
    generate_prompt "tech" true (some "x") false "en" ≠
      prompt_spec_order "tech" true (some "x") false "en" ∧
    generate_prompt "tech" true (some "x") false "ro" ≠
      prompt_spec_order "tech" true (some "x") false "ro" := by
  constructor <;> decide

/-- C1 (amended): prompt composition is pure and deterministic, and for
every plan and enrichment context the clauses of the composed request
appear in the fixed order base template, then keyword clause, then tone
clause, then link clause, in both language branches. -/
theorem generate_prompt_clause_order (topic : String) (is_funny : Bool)
    (tk : Option String) (il : Bool) (language : String) :
    generate_prompt topic is_funny tk il language =
      prompt_code_order topic is_funny tk il language :=
  generate_prompt_eq_code_order topic is_funny tk il language

/-- C8 (counterexample): it is not true that the composed request contains
the link URL substring if and only if the link is included: a plan whose
topic is itself the blog URL produces a prompt containing the URL even
though the plan does not want a link. -/
theorem generate_prompt_link_iff_cex :
    ¬ (∀ (topic : String) (is_funny : Bool) (tk : Option String) (il : Bool)
        (language : String),
        (hasSubstr BLOG_URL (generate_prompt topic is_funny tk il language) ↔
          il = true)) := by
  intro hclaim
  have h := (hclaim BLOG_URL false none false "en").mp
    ⟨"\n        You are a friendly, engaging, and knowledgeable tech enthusiast.\n        Your task is to write a single tweet (maximum 280 characters) about the following topic:\n        \"",
     "\".\n        \n        The tweet should be:\n        - Concise and to the point.\n        - Engaging and conversational.\n        - Use relevant hashtags.\n        - Sound like it was written by a human.\n        ",
     by decide⟩
  exact absurd h (by decide)

/-- C8 (amended): when the plan wants a link the composed request contains
the exact blog URL substring; when it does not, no link clause is appended
at all — the request is exactly base, then keyword, then tone clause
(though the URL can still occur inside the topic or keyword text). -/
theorem generate_prompt_link_inclusion (topic : String) (is_funny : Bool)
    (tk : Option String) (language : String) :
    hasSubstr BLOG_URL (generate_prompt topic is_funny tk true language) ∧
    generate_prompt topic is_funny tk false language =
      base_clause topic language ++ keyword_clause tk language ++
        tone_clause is_funny language := by
  constructor
  · rw [generate_prompt_eq_code_order]
    unfold prompt_code_order
    exact hasSubstr_append_right _ (link_clause_contains_url language)
  · rw [generate_prompt_eq_code_order]
    unfold prompt_code_order
    rw [show link_clause false language = "" from rfl, String.append_empty]

/-- C9: every language string other than the secondary language "ro" — in
particular every language outside the supported set — selects the
primary-language (English) template with all other clauses applied as for
a primary-language plan. -/
theorem generate_prompt_unknown_language (topic : String) (is_funny : Bool)
    (tk : Option String) (il : Bool) (language : String)
    (_h1 : language ≠ "en") (h2 : language ≠ "ro") :
    generate_prompt topic is_funny tk il language =
      generate_prompt topic is_funny tk il "en" := by
  have hl : (language == "ro") = false := beq_eq_false_iff_ne.mpr h2
  unfold generate_prompt
  rw [hl]
  rfl

/-- C9 (witness): the unsupported language "fr" yields the same request as
the primary language. -/
theorem generate_prompt_unknown_language_witness :
    generate_prompt "tech" false none false "fr" =
      generate_prompt "tech" false none false "en" :=
  generate_prompt_unknown_language "tech" false none false "fr"
    (by decide) (by decide)

/-- C2 (counterexample): for a response whose first candidate text is the
whitespace-only string " ", the invoker returns the present empty string,
not absence, while the spec-described validation returns absence. -/
theorem gemini_invoke_whitespace_cex :
    gemini_invoke (HttpOutcome.response 200 (some (geminiDataWith " "))) =
      some "" ∧
    spec_validate (extract_tweet_text (geminiDataWith " ")) = none := by
  constructor <;> decide

/-- C2 (amended): for every service response the invoker extracts the first
candidate text and returns absent when that text is missing or empty;
when the text is present and non-empty it returns the text with
surrounding whitespace trimmed — so a whitespace-only text yields the
present empty string rather than absence. -/
theorem gemini_invoke_extraction (d : GeminiData) :
    (extract_tweet_text d = none →
      gemini_invoke (HttpOutcome.response 200 (some d)) = none) ∧
    (extract_tweet_text d = some "" →
      gemini_invoke (HttpOutcome.response 200 (some d)) = none) ∧
    (∀ s, extract_tweet_text d = some s → s ≠ "" →
      gemini_invoke (HttpOutcome.response 200 (some d)) = some (py_strip s)) := by
  refine ⟨fun h => ?_, fun h => ?_, fun s hs hne => ?_⟩
  · simp [gemini_invoke, h, pyTruthy,
      show ¬(400 ≤ (200:Nat) ∧ (200:Nat) < 600) by omega]
  · simp [gemini_invoke, h, pyTruthy,
      show ¬(400 ≤ (200:Nat) ∧ (200:Nat) < 600) by omega]
  · simp [gemini_invoke, hs, hne, pyTruthy,
      show ¬(400 ≤ (200:Nat) ∧ (200:Nat) < 600) by omega]

/-- C2 (witness): a padded candidate text comes back trimmed. -/
theorem gemini_invoke_extraction_witness :
    gemini_invoke (HttpOutcome.response 200 (some (geminiDataWith " hi "))) =
      some "hi" :=
  ((gemini_invoke_extraction (geminiDataWith " hi ")).2.2 " hi "
    (by decide) (by decide)).trans (by decide)

/-- C3 (counterexample): the invoker does not return absent on every
non-2xx status: a 300 response whose body parses to a candidate text is
returned as a present post, because the status check of the source only
rejects the 4xx and 5xx classes. -/
theorem gemini_invoke_non2xx_cex :
    ¬ (∀ (s : Nat) (b : Option GeminiData), is2xx s = false →
        gemini_invoke (HttpOutcome.response s b) = none) := by
  intro hclaim
  exact absurd (hclaim 300 (some (geminiDataWith "hi")) (by decide)) (by decide)

/-- C3 (amended): the invoker is a total function that never raises: on
transport failure, on every 4xx or 5xx status (the statuses the source
status check rejects), and on a malformed response body it returns
absent. -/
theorem gemini_invoke_failure_absent :
    gemini_invoke HttpOutcome.transportError = none ∧
    (∀ (s : Nat) (b : Option GeminiData), 400 ≤ s → s < 600 →
      gemini_invoke (HttpOutcome.response s b) = none) ∧
    (∀ s : Nat, gemini_invoke (HttpOutcome.response s none) = none) := by
  refine ⟨rfl, fun s b h4 h6 => ?_, fun s => ?_⟩
  · simp [gemini_invoke, h4, h6]
  · simp only [gemini_invoke]
    split <;> rfl

/-- C3 (witness): a 404 with a well-formed body and a 204 with a malformed
body both yield absence. -/
theorem gemini_invoke_failure_absent_witness :
    gemini_invoke (HttpOutcome.response 404 (some (geminiDataWith "hi"))) =
      none ∧
    gemini_invoke (HttpOutcome.response 204 none) = none :=
  ⟨gemini_invoke_failure_absent.2.1 404 (some (geminiDataWith "hi"))
      (by decide) (by decide),
   gemini_invoke_failure_absent.2.2 204⟩

/-- C7: the publisher is a total function that never propagates an
exception: on success it reports success together with the platform
identifier, and on any error outcome it reports failure with no
identifier. -/
theorem post_tweet_result (outcome : TweepyOutcome) :
    (∀ tid, outcome = TweepyOutcome.success tid →
      post_tweet outcome = { succeeded := true, identifier := some tid }) ∧
    ((∀ tid, outcome ≠ TweepyOutcome.success tid) →
      post_tweet outcome = { succeeded := false, identifier := none }) := by
  cases outcome with
  | success tid =>
    exact ⟨fun t ht => (by cases ht; rfl), fun hn => absurd rfl (hn tid)⟩
  | tweepyError m => exact ⟨fun t ht => (by cases ht), fun _ => rfl⟩
  | otherError m => exact ⟨fun t ht => (by cases ht), fun _ => rfl⟩

/-- C7 (witness): a successful publish reports the identifier, a tweepy
error reports failure with no identifier. -/
theorem post_tweet_result_witness :
    post_tweet (TweepyOutcome.success "12345") =
      { succeeded := true, identifier := some "12345" } ∧
    post_tweet (TweepyOutcome.tweepyError "Unauthorized") =
      { succeeded := false, identifier := none } :=
  ⟨(post_tweet_result (TweepyOutcome.success "12345")).1 "12345" rfl,
   (post_tweet_result (TweepyOutcome.tweepyError "Unauthorized")).2
     (fun _ h => TweepyOutcome.noConfusion h)⟩

/-- C4: in every run the generation call is attempted in all iterations —
no iteration failure aborts the run — and an iteration whose generation
step yields no post performs no publish call in its segment of the
trace. -/
theorem run_bot_failure_isolation (env : RunEnv) :
    (run_bot env).countP isGenerateEvent = num_tweets env ∧
    (∀ i, i < num_tweets env → gemini_invoke ((env.iter i).gemini) = none →
      (iterBlock env (num_tweets env) i).countP isPublishEvent = 0) := by
  constructor
  · by_cases h : num_tweets env = 0
    · simp [run_bot, h]
    · simp only [run_bot]
      rw [if_neg h]
      exact countP_range_flatMap_generate env (num_tweets env) (num_tweets env)
  · intro i _ hg
    simp [iterBlock, List.countP_append, run_iteration, hg, pyTruthy,
      List.countP_cons, isPublishEvent]

/-- C4 (witness): in a two-iteration run whose generation calls fail at
transport level, iteration 0 publishes nothing while both iterations still
attempt generation. -/
theorem run_bot_failure_isolation_witness :
    (iterBlock envFail (num_tweets envFail) 0).countP isPublishEvent = 0 ∧
    (run_bot envFail).countP isGenerateEvent = num_tweets envFail :=
  ⟨(run_bot_failure_isolation envFail).2 0 (by decide) (by decide),
   (run_bot_failure_isolation envFail).1⟩

/-- C5: for every random source the day-planning draw is an integer in
[0, 7], and a zero draw completes the run with an empty trace — no
enrichment, generation or publish call at all. -/
theorem run_bot_day_plan (env : RunEnv) :
    num_tweets env ≤ 7 ∧ (num_tweets env = 0 → run_bot env = []) := by
  constructor
  · simp only [num_tweets, randint]
    omega
  · intro h
    simp [run_bot, h]

/-- C5 (witness): a draw of 8 plans zero posts and the run makes no
external call. -/
theorem run_bot_day_plan_witness :
    num_tweets envZero ≤ 7 ∧ run_bot envZero = [] :=
  ⟨(run_bot_day_plan envZero).1, (run_bot_day_plan envZero).2 (by decide)⟩

/-- C6: every run of at least one iteration sleeps exactly once after every
iteration except the last — count minus one inter-post delays, no trailing
wait — and every slept delay lies in [3600, 14400]. -/
theorem run_bot_interpost_delays (env : RunEnv) (h : 1 ≤ num_tweets env) :
    (run_bot env).countP isSleepEvent = num_tweets env - 1 ∧
    (∀ d, Event.sleep d ∈ run_bot env → 3600 ≤ d ∧ d ≤ 14400) := by
  have hne : num_tweets env ≠ 0 := by omega
  constructor
  · simp only [run_bot]
    rw [if_neg hne, countP_range_flatMap_sleep]
    exact Nat.min_eq_right (Nat.sub_le _ _)
  · intro d hd
    simp only [run_bot] at hd
    rw [if_neg hne] at hd
    rcases List.mem_flatMap.mp hd with ⟨i, _, hmem⟩
    rcases List.mem_append.mp hmem with hmem | hmem
    · exact absurd hmem (sleep_not_in_run_iteration d (env.iter i))
    · split at hmem
      · simp only [List.mem_singleton, Event.sleep.injEq] at hmem
        subst hmem
        have := Nat.mod_lt ((env.iter i).delay_draw) (show 0 < 10801 by omega)
        simp only [randint]
        omega
      · simp at hmem

/-- C6 (witness): a three-iteration run performs exactly two inter-post
delays. -/
theorem run_bot_interpost_delays_witness :
    (run_bot envOk3).countP isSleepEvent = 2 :=
  (run_bot_interpost_delays envOk3 (by decide)).1

/-- C10: in every run the publish operation is only ever invoked with a
non-empty text — an absent generation result, or one that trimmed to the
empty string, never reaches a publish call. -/
theorem run_bot_publish_nonempty (env : RunEnv) (s : String)
    (h : Event.publish s ∈ run_bot env) : s ≠ "" := by
  by_cases hz : num_tweets env = 0
  · simp [run_bot, hz] at h
  · simp only [run_bot] at h
    rw [if_neg hz] at h
    rcases List.mem_flatMap.mp h with ⟨i, _, hmem⟩
    rcases List.mem_append.mp hmem with hmem | hmem
    · exact publish_in_run_iteration_nonempty (env.iter i) s hmem
    · split at hmem <;> simp at hmem

/-- C10 (witness): the one publish call of a successful one-iteration run
carries the non-empty generated text. -/
theorem run_bot_publish_nonempty_witness :
    Event.publish "hello" ∈ run_bot envOk1 ∧ "hello" ≠ "" :=
  ⟨by decide, run_bot_publish_nonempty envOk1 "hello" (by decide)⟩
